/-
Verification of the BF2MC-DiscordBot ("Backstab") statistics pipeline.

This file gives a shallow embedding, in Lean 4, of the stat-aggregation and
server-status code of the repository:
  * `cogs/CogServerStatus.py` — the polling loop (`StatusLoop`), match-end
    detection, `sum_player_stats`, `record_player_stats`, `split_list`,
    `get_rank_data`, `time_to_sec`, and the `player_stats` table schema;
  * `cogs/CogPlayerStats.py` — `record_map_stats`, `is_medal_earned`,
    and the ribbon checks of the `/stats player` command;
  * `common/CommonStrings.py` — `MEDALS_DATA`, `MAP_DATA`;
  * `src/bot.py` — `BackstabBot.query_api`, `BackstabBot.split_list`.

Python dictionary rows become Lean structures, the MySQL database becomes an
explicit lookup function plus a list of emitted writes, and fallible Python
code (uncaught exceptions) is modelled with `Except`.  The theorems at the end
of the file settle the claims about this code.
-/
import Mathlib

namespace Backstab

/-! ## Python primitives

The repository calls two Python string primitives, `str.split(sep)` and
`int(str)`.  They are modelled here at the `List Char` level so that they are
executable by the kernel. -/

/-- Python `s.split(sep)` for a one-character separator: splitting the empty
string gives `[""]`, and consecutive separators give empty fields
(`":".split(":") == ["", ""]`). -/
def pySplit (sep : Char) : List Char → List (List Char)
  | [] => [[]]
  | c :: rest =>
    let r := pySplit sep rest
    if c = sep then [] :: r
    else
      match r with
      | h :: t => (c :: h) :: t
      | [] => [[c]]

/-- Digit-string parsing: `none` where Python `int()` raises `ValueError`. -/
def pyParseDigits (cs : List Char) : Option Nat :=
  match cs with
  | [] => none
  | _ => cs.foldl (fun acc c =>
      match acc with
      | none => none
      | some a => if c.isDigit then some (a * 10 + (c.toNat - '0'.toNat)) else none)
      (some 0)

/-- Python `int(s)` on an already-stripped string: an optional sign followed by
decimal digits; `none` where Python raises `ValueError`. -/
def pyInt? (cs : List Char) : Option Int :=
  match cs with
  | '-' :: rest => (pyParseDigits rest).map (fun n => -(n : Int))
  | '+' :: rest => (pyParseDigits rest).map (fun n => (n : Int))
  | _ => (pyParseDigits cs).map (fun n => (n : Int))

/-! ## Data model

A player entry of a server snapshot, as the stats API returns it
(`CogServerStatus.py`: the elements of `s['players']`, with keys
`name`, `score`, `deaths`, `team`). -/

structure Player where
  name : String
  score : Int
  deaths : Int
  team : Int
  deriving Repr, DecidableEq

/-- One server entry of a snapshot (`CogServerStatus.py`: the elements of
`self.server_data['results']`).  Presentation-only fields (`server_name`,
`map_name`, `time_limit`) are carried along but never inspected by the
modelled logic. -/
structure Server where
  id : Int
  server_name : String
  map_name : String
  time_elapsed : String
  time_limit : String
  game_type : String
  team1_country : String
  team2_country : String
  team1_score : Int
  team2_score : Int
  players : List Player
  deriving Repr, DecidableEq

/-- A full snapshot (`self.server_data`): the JSON object with keys
`count` and `results`. -/
structure Snapshot where
  count : Int
  results : List Server
  deriving Repr, DecidableEq

/-- `CogServerStatus.time_to_sec` (lines 419–422):

```python
def time_to_sec(self, time: str) -> int:
    hours, minutes, seconds = time.split(':')
    return int(hours) * 3600 + int(minutes) * 60 + int(seconds)
```

Python raises (`ValueError`) when the string does not split into exactly three
integer fields; that failure region is `none` here. -/
def time_to_sec (time : String) : Option Int :=
  match pySplit ':' time.data with
  | [hours, minutes, seconds] => do
      pure ((← pyInt? hours) * 3600 + (← pyInt? minutes) * 60 + (← pyInt? seconds))
  | _ => none

/-! ## `split_list`

`BackstabBot.split_list` (`src/bot.py` lines 61–72); the same function is
repeated verbatim as `CogPlayerStats.split_list` and
`CogServerStatus.split_list`:

```python
def split_list(lst: list, chunk_size: int) -> list[list]:
    if chunk_size <= 0:
        return [lst]
    else:
        num_chunks = len(lst) // chunk_size
        remainder = len(lst) % chunk_size
        result = [lst[i*chunk_size:(i+1)*chunk_size] for i in range(num_chunks)]
        if remainder:
            result.append(lst[-remainder:])
        return result
```

The slice `lst[i*cs:(i+1)*cs]` is `(lst.drop (i*cs)).take cs` and the slice
`lst[-remainder:]` (with `0 < remainder ≤ len`) is
`lst.drop (lst.length - remainder)`. -/
def split_list {α : Type} (lst : List α) (chunk_size : Int) : List (List α) :=
  if chunk_size ≤ 0 then
    [lst]
  else
    let cs := chunk_size.toNat
    let num_chunks := lst.length / cs
    let remainder := lst.length % cs
    let result := (List.range num_chunks).map (fun i => (lst.drop (i * cs)).take cs)
    if remainder ≠ 0 then result ++ [lst.drop (lst.length - remainder)] else result

/-! ## The stat aggregator

The cumulative per-player record, i.e. the numeric columns of the
`player_stats` table and exactly the keys of the zeroed dictionary that
`CogServerStatus.sum_player_stats` starts from (lines 262–274). -/

structure PlayerStats where
  score : Int
  deaths : Int
  us_games : Int
  ch_games : Int
  ac_games : Int
  eu_games : Int
  cq_games : Int
  cf_games : Int
  wins : Int
  losses : Int
  top_player : Int
  deriving Repr, DecidableEq

/-- The zeroed-out starting dictionary of `sum_player_stats`
(`CogServerStatus.py` lines 262–274). -/
def zeroed_stats : PlayerStats :=
  { score := 0, deaths := 0, us_games := 0, ch_games := 0, ac_games := 0
    eu_games := 0, cq_games := 0, cf_games := 0, wins := 0, losses := 0
    top_player := 0 }

/-- The columns of the `player_stats` table created by
`CogServerStatus.__init__` (`CREATE TABLE IF NOT EXISTS player_stats (...)`,
lines 84–101). -/
def player_stats_columns : List String :=
  ["id", "nickname", "first_seen", "score", "deaths", "us_games", "ch_games",
   "ac_games", "eu_games", "cq_games", "cf_games", "wins", "losses",
   "top_player"]

/-- `sum_player_stats`, block "Add scores and deaths"
(`CogServerStatus.py` lines 277–279). -/
def add_score_deaths (player_new_stats : Player) (f : PlayerStats) :
    PlayerStats :=
  { f with
    score := f.score + player_new_stats.score
    deaths := f.deaths + player_new_stats.deaths }

/-- `sum_player_stats`, block "Detect player's team and if that team won or
lost (draws are omitted)" (lines 280–292): returns the player's team country
together with the record after the win/loss update. -/
def detect_team_win_loss (player_new_stats : Player) (game_data : Server)
    (f : PlayerStats) : String × PlayerStats :=
  if player_new_stats.team = 0 then
    (game_data.team1_country,
      if game_data.team1_score > game_data.team2_score then
        { f with wins := f.wins + 1 }
      else if game_data.team1_score < game_data.team2_score then
        { f with losses := f.losses + 1 }
      else f)
  else
    (game_data.team2_country,
      if game_data.team1_score < game_data.team2_score then
        { f with wins := f.wins + 1 }
      else if game_data.team1_score > game_data.team2_score then
        { f with losses := f.losses + 1 }
      else f)

/-- `sum_player_stats`, block "Add team they played for" (lines 293–301). -/
def add_team_game (team : String) (f : PlayerStats) : PlayerStats :=
  if team = "US" then { f with us_games := f.us_games + 1 }
  else if team = "CH" then { f with ch_games := f.ch_games + 1 }
  else if team = "AC" then { f with ac_games := f.ac_games + 1 }
  else { f with eu_games := f.eu_games + 1 }

/-- `sum_player_stats`, block "Add gamemode they played" (lines 302–306). -/
def add_gamemode_game (game_data : Server) (f : PlayerStats) : PlayerStats :=
  if game_data.game_type = "capturetheflag" then
    { f with cf_games := f.cf_games + 1 }
  else
    { f with cq_games := f.cq_games + 1 }

/-- `sum_player_stats`, block "Add if they were the top player"
(lines 307–309). -/
def add_top_player (player_new_stats : Player) (top_player_name : String)
    (f : PlayerStats) : PlayerStats :=
  if player_new_stats.name = top_player_name then
    { f with top_player := f.top_player + 1 }
  else f

/-- `CogServerStatus.sum_player_stats` (lines 253–311): merge one player's
round contribution (`player_new_stats`) and the round outcome (`game_data`,
the same server dictionary) into the cumulative record `orig_stats`,
starting from a zeroed record when `orig_stats` is `None`.  The function is
the sequential composition of the source's commented blocks, each embedded
above as its own definition. -/
def sum_player_stats (orig_stats : Option PlayerStats)
    (player_new_stats : Player) (game_data : Server)
    (top_player_name : String) : PlayerStats :=
  let final0 :=
    match orig_stats with
    | none => zeroed_stats
    | some orig => orig
  let final1 := add_score_deaths player_new_stats final0
  let team_final2 := detect_team_win_loss player_new_stats game_data final1
  let final3 := add_team_game team_final2.1 team_final2.2
  let final4 := add_gamemode_game game_data final3
  add_top_player player_new_stats top_player_name final4

/-- The top-scorer scan at the start of `CogServerStatus.record_player_stats`
(lines 321–327): the running best is replaced when a player has a strictly
higher score, or an equal score with strictly fewer deaths. -/
def find_top_player (players : List Player) : Option Player :=
  players.foldl
    (fun top p =>
      match top with
      | none => some p
      | some t =>
          if p.score > t.score ∨ (p.score = t.score ∧ p.deaths < t.deaths) then
            some p
          else some t)
    none

/-- A write issued to the `player_stats` table by `record_player_stats`:
either `db.update` on the existing row's `id`, or `db.insert` of a new row
carrying `nickname` and `first_seen` in addition to the summed stats. -/
inductive DBWrite where
  | update (row_id : Nat) (stats : PlayerStats)
  | insert (nickname : String) (first_seen : String) (stats : PlayerStats)
  deriving Repr, DecidableEq

/-- `CogServerStatus.record_player_stats` (lines 313–359), as a pure function:
`db` abstracts `self.bot.db.getOne("player_stats", ..., nickname=...)` and
`today` abstracts `datetime.now().date()`.  Returns the list of database
writes the routine performs, in order.  (`_top_player['name']` is only read
inside the per-player loop, so the `.getD ""` default is never reachable:
the loop body runs only when `players` is non-empty, and then
`find_top_player` is `some`.) -/
def record_player_stats (db : String → Option (Nat × PlayerStats))
    (today : String) (server_data : Server) : List DBWrite :=
  let top_player_name := ((find_top_player server_data.players).map
    (fun p => p.name)).getD ""
  server_data.players.map (fun p =>
    match db p.name with
    | some (row_id, orig) =>
        DBWrite.update row_id (sum_player_stats (some orig) p server_data
          top_player_name)
    | none =>
        DBWrite.insert p.name today (sum_player_stats none p server_data
          top_player_name))

/-! ### Concrete match data for the aggregator scenarios -/

/-- A player of a finished match with zero score and zero deaths
(did not participate). -/
def c2_player : Player :=
  { name := "Ghost", score := 0, deaths := 0, team := 0 }

/-- A finished match whose only listed player neither scored nor died. -/
def c2_server : Server :=
  { id := 1, server_name := "Server A", map_name := "backstab"
    time_elapsed := "00:10:00", time_limit := "00:20:00"
    game_type := "conquest", team1_country := "US", team2_country := "CH"
    team1_score := 0, team2_score := 0, players := [c2_player] }

/-- A pre-existing cumulative record used to test the update path. -/
def c2_orig : PlayerStats :=
  { score := 5, deaths := 3, us_games := 2, ch_games := 0, ac_games := 0
    eu_games := 0, cq_games := 2, cf_games := 0, wins := 1, losses := 1
    top_player := 0 }

/-- The example scenario of the spec: player Vet1, score 10, deaths 2,
on team index 0 (team `US` in `c4_match`). -/
def vet1 : Player := { name := "Vet1", score := 10, deaths := 2, team := 0 }

/-- The enemy top scorer of the example match, on team index 1. -/
def c4_foe : Player := { name := "Foe", score := 11, deaths := 0, team := 1 }

/-- The example finished match: gamemode conquest, Vet1's team (`US`,
final score 10) loses to the other team (`CH`, final score 50). -/
def c4_match : Server :=
  { id := 2, server_name := "Server B", map_name := "honor"
    time_elapsed := "00:00:30", time_limit := "00:20:00"
    game_type := "conquest", team1_country := "US", team2_country := "CH"
    team1_score := 10, team2_score := 50, players := [vet1, c4_foe] }

/-- The record the aggregator actually builds for Vet1 in `c4_match`. -/
def vet1_expected : PlayerStats :=
  { score := 10, deaths := 2, us_games := 1, ch_games := 0, ac_games := 0
    eu_games := 0, cq_games := 1, cf_games := 0, wins := 0, losses := 1
    top_player := 0 }

/-! ## The polling loop (`StatusLoop`)

`CogServerStatus.StatusLoop` (lines 457–542).  The match-end detection block
(lines 467–493) is:

```python
if self.server_data != None:
    for _s_o in self.server_data['results']:
        _server_found = False
        for _s_n in _new_data['results']:
            if _s_o['id'] == _s_n['id']:
                _server_found = True
                _original_time = self.time_to_sec(_s_o['time_elapsed'])
                _new_time = self.time_to_sec(_s_n['time_elapsed'])
                if _original_time > _new_time:
                    await self.record_player_stats(_s_o)
                break
        if not _server_found:
            await self.record_player_stats(_s_o)
self.server_data = _new_data
```

followed (line 497) by `for _s in self.server_data['results']: ...`. -/

/-- Whether the inner loop of `StatusLoop` hands `s_o` (a server of the
previous snapshot) to `record_player_stats`: the first server of the new
snapshot with the same id is found (the `break` makes later duplicates
irrelevant), and `s_o` is recorded iff its elapsed time is strictly greater
than that server's; when no server of the new snapshot matches, `s_o` is
always recorded.  The `.getD 0` stands where Python would raise `ValueError`
on a malformed time string; the theorems below hypothesise parseable times. -/
def shouldRecord (new_results : List Server) (s_o : Server) : Bool :=
  match new_results.find? (fun s_n => s_o.id == s_n.id) with
  | some s_n =>
      decide ((time_to_sec s_o.time_elapsed).getD 0
        > (time_to_sec s_n.time_elapsed).getD 0)
  | none => true

/-- One tick of `StatusLoop` after the fetch, restricted to its stat-recording
effect and state update: `server_data` is the previous `self.server_data`,
`new_data` the value `query_api` just returned.  The result is the ordered
list of servers handed to `record_player_stats` together with the new
`self.server_data`.  When `new_data` is `None` the tick raises `TypeError`
before recording anything: with tracked servers present, at
`for _s_n in _new_data['results']` (line 474); otherwise at
`for _s in self.server_data['results']` (line 497) after the `None` has been
assigned to `self.server_data`. -/
def statusLoopStep (server_data : Option Snapshot)
    (new_data : Option Snapshot) : Except String (List Server × Snapshot) :=
  match new_data with
  | none => .error "TypeError: 'NoneType' object is not subscriptable"
  | some new =>
      match server_data with
      | some old => .ok (old.results.filter (shouldRecord new.results), new)
      | none => .ok ([], new)

/-- A concrete previous snapshot for exercising `statusLoopStep`: one server
mid-match (`c2_server`, elapsed `00:10:00`) and one server that will
disappear. -/
def wit_old_snapshot : Snapshot :=
  { count := 2
    results :=
      [c2_server,
       { c2_server with
          id := 9, server_name := "Server Z", time_elapsed := "00:05:00" }] }

/-- A concrete new snapshot: the same server id restarted at elapsed
`00:00:10` (a new match began), the second server gone offline. -/
def wit_new_snapshot : Snapshot :=
  { count := 1
    results := [{ c2_server with time_elapsed := "00:00:10" }] }

/-! ## The snapshot fetcher (`BackstabBot.query_api`)

`src/bot.py` lines 288–329:

```python
async def query_api(self, url_subfolder: str, **kwargs) -> json:
    try:
        _DEBUG = self.config[url_subfolder]
    except Exception:
        _DEBUG = None
    ...
    if not _DEBUG:
        _response = requests.get(_url, timeout=3)
    self.last_query = datetime.utcnow()
    if _DEBUG:
        self.reload_config()
        return _DEBUG
    elif _response.status_code == 200:
        return _response.json()
    else:
        return None
```

Note which failures are handled: only a *received* non-200 response returns
`None`.  `requests.get` raising (timeout, connection failure) and
`_response.json()` raising on a malformed body are both uncaught.
`CogServerStatus.query_api` (lines 104–121) is the same function without the
debug path and without the `timeout=3` argument. -/

/-- The body of a received HTTP response: either a JSON document
(abstracted to its parse result) or bytes that `_response.json()`
fails to parse. -/
inductive HttpBody where
  | jsonBody (data : Nat)
  | malformedBody
  deriving Repr, DecidableEq

/-- What `requests.get` did: returned a response, or raised. -/
inductive RequestOutcome where
  | response (status_code : Int) (body : HttpBody)
  | timeout
  | connectionError
  deriving Repr, DecidableEq

/-- `BackstabBot.query_api` as a function of the debug override (the
`self.config[url_subfolder]` lookup, `none` when the key is missing) and of
the request outcome.  `.error` marks an uncaught Python exception
propagating out of the coroutine; `.ok none` is the sentinel return. -/
def query_api (debug : Option Nat) (outcome : RequestOutcome) :
    Except String (Option Nat) :=
  match debug with
  | some d => .ok (some d)
  | none =>
      match outcome with
      | .timeout => .error "requests.exceptions.Timeout"
      | .connectionError => .error "requests.exceptions.ConnectionError"
      | .response status_code body =>
          if status_code = 200 then
            match body with
            | .jsonBody d => .ok (some d)
            | .malformedBody => .error "json.JSONDecodeError"
          else
            .ok none

/-! ## Map statistics (`CogPlayerStats.record_map_stats`)

`cogs/CogPlayerStats.py` lines 181–226:

```python
async def record_map_stats(self, server_data: dict) -> bool:
    if server_data == None or server_data['playersCount'] < self.bot.config['PlayerStats']['MatchMinPlayers']:
        return False
    if server_data['gameType'] == "capturetheflag":
        _gamemode = "capturetheflag"
    else:
        _gamemode = "conquest"
    _map_id = CS.MAP_DATA[server_data['mapName']][1]
    _dbEntry = self.bot.db_discord.getOne("map_stats", [_gamemode], ("map_id=%s", [_map_id]))
    _times_played = 1
    if _dbEntry != None:
        _times_played += _dbEntry[_gamemode]
    self.bot.db_discord.insertOrUpdate("map_stats", {...}, "map_id")
    return True
```
-/

/-- `CommonStrings.MAP_DATA` (`common/CommonStrings.py` lines 28–42):
map key → (display name, numeric map id). -/
def MAP_DATA : List (String × String × Nat) :=
  [("backstab", ("Backstab", 0)),
   ("bridgetoofar", ("Bridge Too Far", 1)),
   ("coldfront", ("Cold Front", 2)),
   ("dammage", ("Dammage", 3)),
   ("deadlypass", ("Deadly Pass", 4)),
   ("harboredge", ("Harbor Edge", 5)),
   ("honor", ("Honor", 6)),
   ("littlebigeye", ("Little Big Eye", 7)),
   ("missilecrisis", ("Missile Crisis", 8)),
   ("russianborder", ("Russian Border", 9)),
   ("specialop", ("Special Op", 10)),
   ("theblackgold", ("The Black Gold", 11)),
   ("thenest", ("The Nest", 12))]

/-- The fields of the newer API's server dictionary that `record_map_stats`
reads. -/
structure ApiServerData where
  playersCount : Int
  gameType : String
  mapName : String
  deriving Repr, DecidableEq

/-- The row passed to `insertOrUpdate("map_stats", ...)`. -/
structure MapWrite where
  map_id : Nat
  map_name : String
  gamemode : String
  times_played : Int
  deriving Repr, DecidableEq

/-- `CogPlayerStats.record_map_stats` as a pure function: `matchMinPlayers`
is `config['PlayerStats']['MatchMinPlayers']`, `db map_id gamemode` abstracts
the `getOne("map_stats", [gamemode], map_id=...)` lookup.  The result is the
Python return value paired with the write performed (`none` when nothing is
written); an unknown map name raises `KeyError` on the `CS.MAP_DATA`
subscript.  (The `try/except` that turns a failing DB write into a `False`
return is outside this model: the database itself is not modelled as
failing.) -/
def record_map_stats (matchMinPlayers : Int)
    (db : Nat → String → Option Int) (server_data : Option ApiServerData) :
    Except String (Bool × Option MapWrite) :=
  match server_data with
  | none => .ok (false, none)
  | some s =>
      if s.playersCount < matchMinPlayers then
        .ok (false, none)
      else
        let gamemode :=
          if s.gameType = "capturetheflag" then "capturetheflag"
          else "conquest"
        match MAP_DATA.find? (fun e => e.1 == s.mapName) with
        | none => .error "KeyError"
        | some e =>
            let map_id := e.2.2
            let times_played : Int := 1 + (match db map_id gamemode with
              | some n => n
              | none => 0)
            .ok (true, some
              { map_id := map_id, map_name := s.mapName
                gamemode := gamemode, times_played := times_played })

/-- A below-minimum finished match (one participant who did score) for the
old-revision player-stats recorder, which consults no minimum. -/
def c5_server : Server :=
  { id := 3, server_name := "Server C", map_name := "dammage"
    time_elapsed := "00:12:00", time_limit := "00:20:00"
    game_type := "conquest", team1_country := "US", team2_country := "CH"
    team1_score := 4, team2_score := 9, players := [⟨"Solo", 3, 1, 0⟩] }

/-- A configured `MatchMinPlayers` value of 2 for the counterexample. -/
def c5_min_players : Int := 2

/-! ## The rank lookup (`CogServerStatus.get_rank_data` and `RANK_DATA`)

`cogs/CogServerStatus.py` lines 36–57 and 413–417:

```python
def get_rank_data(self, score: int) -> tuple:
    for score_range, rank_data in RANK_DATA.items():
        if score_range[0] <= score < score_range[1]:
            return rank_data
```

The dict is iterated in insertion order; a negative score matches no range and
falls off the end (Python implicitly returns `None`). -/

/-- One entry of `RANK_DATA`: the key `(lo, hi)` — `hi = none` standing for
`float('inf')` — and the value `(name, img)`. -/
structure RankEntry where
  lo : Int
  hi : Option Int
  name : String
  img : String
  deriving Repr, DecidableEq

/-- `RANK_DATA` (`CogServerStatus.py` lines 36–57), in insertion order. -/
def RANK_DATA : List RankEntry :=
  [⟨0, some 25, "Private", "https://raw.githubusercontent.com/lilkingjr1/persman/master/public/ranks/large/pv2.png"⟩,
   ⟨25, some 50, "Private 1st Class", "https://raw.githubusercontent.com/lilkingjr1/persman/master/public/ranks/large/pfc.png"⟩,
   ⟨50, some 100, "Corporal", "https://raw.githubusercontent.com/lilkingjr1/persman/master/public/ranks/large/cpl.png"⟩,
   ⟨100, some 150, "Sergeant", "https://raw.githubusercontent.com/lilkingjr1/persman/master/public/ranks/large/sgt.png"⟩,
   ⟨150, some 225, "Sergeant 1st Class", "https://raw.githubusercontent.com/lilkingjr1/persman/master/public/ranks/large/sfc.png"⟩,
   ⟨225, some 360, "Master Sergeant", "https://raw.githubusercontent.com/lilkingjr1/persman/master/public/ranks/large/msg.png"⟩,
   ⟨360, some 550, "Sgt. Major", "https://raw.githubusercontent.com/lilkingjr1/persman/master/public/ranks/large/sgm.png"⟩,
   ⟨550, some 750, "Command Sgt. Major", "https://raw.githubusercontent.com/lilkingjr1/persman/master/public/ranks/large/csm.png"⟩,
   ⟨750, some 1050, "Warrant Officer", "https://raw.githubusercontent.com/lilkingjr1/persman/master/public/ranks/large/wo1.png"⟩,
   ⟨1050, some 1500, "Chief Warrant Officer", "https://raw.githubusercontent.com/lilkingjr1/persman/master/public/ranks/large/cw4.png"⟩,
   ⟨1500, some 2000, "2nd Lieutenant", "https://raw.githubusercontent.com/lilkingjr1/persman/master/public/ranks/large/2lt.png"⟩,
   ⟨2000, some 2800, "1st Lieutenant", "https://raw.githubusercontent.com/lilkingjr1/persman/master/public/ranks/large/1lt.png"⟩,
   ⟨2800, some 4000, "Captain", "https://raw.githubusercontent.com/lilkingjr1/persman/master/public/ranks/large/cpt.png"⟩,
   ⟨4000, some 5800, "Major", "https://raw.githubusercontent.com/lilkingjr1/persman/master/public/ranks/large/maj.png"⟩,
   ⟨5800, some 8000, "Lieutenant Colonel", "https://raw.githubusercontent.com/lilkingjr1/persman/master/public/ranks/large/ltc.png"⟩,
   ⟨8000, some 12000, "Colonel", "https://raw.githubusercontent.com/lilkingjr1/persman/master/public/ranks/large/col.png"⟩,
   ⟨12000, some 16000, "Brigadier General", "https://www.military-ranks.org/images/ranks/army/large/brigadier-general.png"⟩,
   ⟨16000, some 22000, "Major General", "https://www.military-ranks.org/images/ranks/army/large/major-general.png"⟩,
   ⟨22000, some 32000, "Lieutenant General", "https://www.military-ranks.org/images/ranks/army/large/lieutenant-general.png"⟩,
   ⟨32000, none, "5 Star General", "https://www.military-ranks.org/images/ranks/army/large/general-of-the-army.png"⟩]

/-- The loop condition `score_range[0] <= score < score_range[1]`
(`score < float('inf')` always holding for the last entry). -/
def rank_range_contains (e : RankEntry) (score : Int) : Bool :=
  decide (e.lo ≤ score) && (match e.hi with
    | some hi => decide (score < hi)
    | none => true)

/-- `CogServerStatus.get_rank_data`: the `(name, img)` value of the first
matching range, `none` when no range matches (score below 0). -/
def get_rank_data (score : Int) : Option (String × String) :=
  (RANK_DATA.find? (fun e => rank_range_contains e score)).map
    (fun e => (e.name, e.img))

/-- The position in `RANK_DATA` of the entry `get_rank_data` returns: the
tier number of the score. -/
def rank_index (score : Int) : Option Nat :=
  RANK_DATA.findIdx? (fun e => rank_range_contains e score)

/-- Contiguity of a rank table, as the source's dict literal exhibits it:
lower bounds ascend starting at `a`, each range's upper bound is the next
range's lower bound, and the final range is unbounded (`float('inf')`). -/
def chainB (a : Int) : List RankEntry → Bool
  | [] => false
  | e :: rest =>
      (e.lo == a) &&
      (match e.hi with
       | none => rest.isEmpty
       | some b => decide (a < b) && chainB b rest)

/-! ## Medals and ribbons

`common/CommonStrings.py` lines 67–83 and `cogs/CogPlayerStats.py`
lines 114–120 and 517–560. -/

/-- `CommonStrings.MEDALS_DATA`: medal key → (bitmask, display name,
requirement text), in insertion order. -/
def MEDALS_DATA : List (String × Nat × String × String) :=
  [("The_Service_Cross", (1 <<< 0, "The Service Cross", "Kill 5 enemies without dying, using kit weapons only.")),
   ("The_Bronze_Star", (1 <<< 1, "The Bronze Star", "Kill 10 enemies without dying, using land vehicle weapons.")),
   ("Air_Force_Cross", (1 <<< 2, "Air Force Cross", "Kill 10 enemies without dying, using aerial weapons.")),
   ("The_Silver_Star", (1 <<< 3, "The Silver Star", "Kill 20 enemies without dying, using vehicle weapons.")),
   ("The_Service_Cross_1st_Class", (1 <<< 4, "The Service Cross, 1st Class", "Kill 10 enemies without dying, using kit weapons only.")),
   ("The_Bronze_Star_1st_Class", (1 <<< 5, "The Bronze Star, 1st Class", "Kill 15 enemies without dying, using land vehicle weapons.")),
   ("Air_Force_Cross_1st_Class", (1 <<< 6, "Air Force Cross, 1st Class", "Kill 15 enemies without dying, using aerial weapons.")),
   ("Expert_Killing", (1 <<< 7, "Expert Killing", "Kill 4 enemies without dying, using one clip in a assault rifle.")),
   ("Expert_Shooting", (1 <<< 8, "Expert Shooting", "Kill 4 enemies without dying, using one clip in a sniper rifle.")),
   ("Expert_Demolition", (1 <<< 9, "Expert Demolition", "Destroy 4 enemy vehicles with C4 without dying.")),
   ("Expert_Repair", (1 <<< 10, "Expert Repair", "Repair 5 friendly vehicles without dying. A third of their health must be restored.")),
   ("Expert_Healer", (1 <<< 11, "Expert Healer", "Heal 4 friendly players without dying. A third of their health must be restored.")),
   ("Navy_Cross", (1 <<< 12, "Navy Cross", "Kill 30 enemies without dying, using kit weapons only.")),
   ("Legion_of_Merit", (1 <<< 13, "Legion of Merit", "Kill 15 enemies from a secondary position in a vehicle during one game round.")),
   ("Legion_of_Merit_1st_Class", (1 <<< 14, "Legion of Merit First Class", "Kill 30 enemies from a secondary position in a vehicle during one game round."))]

/-- `CogPlayerStats.is_medal_earned` (lines 117–120):

```python
def is_medal_earned(self, earned_medals: int, medal_name: str) -> bool:
    if medal_name not in CS.MEDALS_DATA:
        return False
    return earned_medals & CS.MEDALS_DATA[medal_name][0] == CS.MEDALS_DATA[medal_name][0]
```
-/
def is_medal_earned (earned_medals : Nat) (medal_name : String) : Bool :=
  match MEDALS_DATA.find? (fun e => e.1 == medal_name) with
  | none => false
  | some e => earned_medals &&& e.2.1 == e.2.1

/-- The ribbon determination of the `/stats player` command
(`CogPlayerStats.py` lines 517–560): the `_ribbons` list built by eight
independent threshold checks, in source order, on games played (`ngp`),
major victories (`mv`), and times-top-player (`ttb`). -/
def earned_ribbons (ngp mv ttb : Int) : List String :=
  (if ngp ≥ 50 then ["Games_Played_50"] else []) ++
  (if ngp ≥ 250 then ["Games_Played_250"] else []) ++
  (if ngp ≥ 500 then ["Games_Played_500"] else []) ++
  (if mv ≥ 5 then ["Major_Victories_5"] else []) ++
  (if mv ≥ 20 then ["Major_Victories_20"] else []) ++
  (if mv ≥ 50 then ["Major_Victories_50"] else []) ++
  (if ttb ≥ 5 then ["Top_Player_5"] else []) ++
  (if ttb ≥ 20 then ["Top_Player_20"] else [])

/-! ## Theorems -/

/-- Joining the full chunks of `split_list` recovers the first
`n * cs` elements. -/
lemma join_range_chunks {α : Type} (lst : List α) (cs : Nat) :
    ∀ n : Nat,
      ((List.range n).map (fun i => (lst.drop (i * cs)).take cs)).flatten
        = lst.take (n * cs) := by
  intro n
  induction n with
  | zero => simp
  | succ n ih =>
      rw [List.range_succ, List.map_append, List.flatten_append, ih]
      simp only [List.map_cons, List.map_nil, List.flatten_cons, List.flatten_nil,
        List.append_nil]
      rw [← List.take_add, Nat.succ_mul]

/-- Every full chunk produced by the comprehension has length exactly `cs`. -/
lemma range_chunk_length {α : Type} (lst : List α) (cs : Nat)
    (l : List α)
    (hl : l ∈ (List.range (lst.length / cs)).map
        (fun i => (lst.drop (i * cs)).take cs)) :
    l.length = cs := by
  simp only [List.mem_map, List.mem_range] at hl
  obtain ⟨i, hi, rfl⟩ := hl
  have hle : (i + 1) * cs ≤ lst.length := by
    calc (i + 1) * cs ≤ lst.length / cs * cs :=
          Nat.mul_le_mul_right cs hi
      _ ≤ lst.length := Nat.div_mul_le_self _ _
  rw [Nat.succ_mul] at hle
  simp only [List.length_take, List.length_drop]
  omega

/-- C10: `split_list` partitions its input: concatenating the returned chunks
in order gives back the original list for every integer `chunk_size`; and when
`chunk_size > 0`, every chunk except possibly the last has length exactly
`chunk_size`, while every chunk (the last included) has length at most
`chunk_size`. -/
theorem split_list_correct {α : Type} (lst : List α) (c : Int) :
    (split_list lst c).flatten = lst ∧
    (0 < c →
      (∀ l ∈ (split_list lst c).dropLast, l.length = c.toNat) ∧
      (∀ l ∈ split_list lst c, l.length ≤ c.toNat)) := by
  have hmod : lst.length / c.toNat * c.toNat + lst.length % c.toNat
      = lst.length := by
    rw [Nat.mul_comm]
    exact Nat.div_add_mod lst.length c.toNat
  constructor
  · simp only [split_list]
    split_ifs with h1 h2
    · simp
    · rw [List.flatten_append, join_range_chunks]
      simp only [List.flatten_cons, List.flatten_nil, List.append_nil]
      have hr : lst.length % c.toNat ≤ lst.length := Nat.mod_le _ _
      have heq : lst.length / c.toNat * c.toNat
          = lst.length - lst.length % c.toNat := by omega
      rw [heq]
      exact List.take_append_drop _ _
    · rw [join_range_chunks]
      have heq : lst.length / c.toNat * c.toNat = lst.length := by omega
      rw [heq, List.take_length]
  · intro hc
    have hcs : c.toNat ≠ 0 := by omega
    have hrlt : lst.length % c.toNat < c.toNat := Nat.mod_lt _ (by omega)
    constructor
    · intro l hl
      simp only [split_list] at hl
      split_ifs at hl with h1 h2
      · exact absurd h1 (by omega)
      · rw [List.dropLast_concat] at hl
        exact range_chunk_length lst c.toNat l hl
      · exact range_chunk_length lst c.toNat l (List.dropLast_subset _ hl)
    · intro l hl
      simp only [split_list] at hl
      split_ifs at hl with h1 h2
      · exact absurd h1 (by omega)
      · rcases List.mem_append.mp hl with hfull | hlast
        · exact (range_chunk_length lst c.toNat l hfull).le
        · have : l = lst.drop (lst.length - lst.length % c.toNat) := by
            simpa using hlast
          subst this
          simp only [List.length_drop]
          omega
      · exact (range_chunk_length lst c.toNat l hl).le

/-- `add_team_game` touches only the four team-game counters, incrementing
their sum by exactly one. -/
lemma add_team_game_fields (team : String) (f : PlayerStats) :
    (add_team_game team f).score = f.score ∧
    (add_team_game team f).deaths = f.deaths ∧
    (add_team_game team f).wins = f.wins ∧
    (add_team_game team f).losses = f.losses ∧
    (add_team_game team f).cq_games = f.cq_games ∧
    (add_team_game team f).cf_games = f.cf_games ∧
    (add_team_game team f).top_player = f.top_player ∧
    (add_team_game team f).us_games + (add_team_game team f).ch_games
        + (add_team_game team f).ac_games + (add_team_game team f).eu_games
      = f.us_games + f.ch_games + f.ac_games + f.eu_games + 1 := by
  unfold add_team_game
  split_ifs <;> refine ⟨rfl, rfl, rfl, rfl, rfl, rfl, rfl, ?_⟩ <;> dsimp <;> ring

/-- `add_gamemode_game` touches only the two gamemode counters, incrementing
their sum by exactly one. -/
lemma add_gamemode_game_fields (game_data : Server) (f : PlayerStats) :
    (add_gamemode_game game_data f).score = f.score ∧
    (add_gamemode_game game_data f).deaths = f.deaths ∧
    (add_gamemode_game game_data f).wins = f.wins ∧
    (add_gamemode_game game_data f).losses = f.losses ∧
    (add_gamemode_game game_data f).us_games = f.us_games ∧
    (add_gamemode_game game_data f).ch_games = f.ch_games ∧
    (add_gamemode_game game_data f).ac_games = f.ac_games ∧
    (add_gamemode_game game_data f).eu_games = f.eu_games ∧
    (add_gamemode_game game_data f).top_player = f.top_player ∧
    (add_gamemode_game game_data f).cq_games
        + (add_gamemode_game game_data f).cf_games
      = f.cq_games + f.cf_games + 1 := by
  unfold add_gamemode_game
  split_ifs <;>
    refine ⟨rfl, rfl, rfl, rfl, rfl, rfl, rfl, rfl, rfl, ?_⟩ <;> dsimp <;> ring

/-- `add_top_player` touches only the `top_player` counter. -/
lemma add_top_player_fields (p : Player) (top : String) (f : PlayerStats) :
    (add_top_player p top f).score = f.score ∧
    (add_top_player p top f).deaths = f.deaths ∧
    (add_top_player p top f).wins = f.wins ∧
    (add_top_player p top f).losses = f.losses ∧
    (add_top_player p top f).us_games = f.us_games ∧
    (add_top_player p top f).ch_games = f.ch_games ∧
    (add_top_player p top f).ac_games = f.ac_games ∧
    (add_top_player p top f).eu_games = f.eu_games ∧
    (add_top_player p top f).cq_games = f.cq_games ∧
    (add_top_player p top f).cf_games = f.cf_games := by
  unfold add_top_player
  split_ifs <;> exact ⟨rfl, rfl, rfl, rfl, rfl, rfl, rfl, rfl, rfl, rfl⟩

/-- `detect_team_win_loss` leaves every field except `wins` and `losses`
unchanged. -/
lemma detect_team_win_loss_fields (p : Player) (g : Server) (f : PlayerStats) :
    (detect_team_win_loss p g f).2.score = f.score ∧
    (detect_team_win_loss p g f).2.deaths = f.deaths ∧
    (detect_team_win_loss p g f).2.us_games = f.us_games ∧
    (detect_team_win_loss p g f).2.ch_games = f.ch_games ∧
    (detect_team_win_loss p g f).2.ac_games = f.ac_games ∧
    (detect_team_win_loss p g f).2.eu_games = f.eu_games ∧
    (detect_team_win_loss p g f).2.cq_games = f.cq_games ∧
    (detect_team_win_loss p g f).2.cf_games = f.cf_games ∧
    (detect_team_win_loss p g f).2.top_player = f.top_player := by
  unfold detect_team_win_loss
  split_ifs <;>
    exact ⟨rfl, rfl, rfl, rfl, rfl, rfl, rfl, rfl, rfl⟩

/-- `detect_team_win_loss` updates `wins`/`losses` by the trichotomy of the
player's own-team score against the opposing team's score. -/
lemma detect_team_win_loss_outcome (p : Player) (g : Server)
    (f : PlayerStats) :
    (((if p.team = 0 then g.team1_score else g.team2_score) >
        (if p.team = 0 then g.team2_score else g.team1_score)) ∧
      (detect_team_win_loss p g f).2.wins = f.wins + 1 ∧
      (detect_team_win_loss p g f).2.losses = f.losses) ∨
    (((if p.team = 0 then g.team1_score else g.team2_score) <
        (if p.team = 0 then g.team2_score else g.team1_score)) ∧
      (detect_team_win_loss p g f).2.losses = f.losses + 1 ∧
      (detect_team_win_loss p g f).2.wins = f.wins) ∨
    (((if p.team = 0 then g.team1_score else g.team2_score) =
        (if p.team = 0 then g.team2_score else g.team1_score)) ∧
      (detect_team_win_loss p g f).2.wins = f.wins ∧
      (detect_team_win_loss p g f).2.losses = f.losses) := by
  unfold detect_team_win_loss
  split_ifs <;> simp_all <;> omega

/-- `add_score_deaths` adds the round score and deaths and touches nothing
else. -/
lemma add_score_deaths_fields (p : Player) (f : PlayerStats) :
    (add_score_deaths p f).score = f.score + p.score ∧
    (add_score_deaths p f).deaths = f.deaths + p.deaths ∧
    (add_score_deaths p f).wins = f.wins ∧
    (add_score_deaths p f).losses = f.losses ∧
    (add_score_deaths p f).us_games = f.us_games ∧
    (add_score_deaths p f).ch_games = f.ch_games ∧
    (add_score_deaths p f).ac_games = f.ac_games ∧
    (add_score_deaths p f).eu_games = f.eu_games ∧
    (add_score_deaths p f).cq_games = f.cq_games ∧
    (add_score_deaths p f).cf_games = f.cf_games ∧
    (add_score_deaths p f).top_player = f.top_player :=
  ⟨rfl, rfl, rfl, rfl, rfl, rfl, rfl, rfl, rfl, rfl, rfl⟩

/-- `sum_player_stats` unfolded into its stage composition. -/
lemma sum_player_stats_eq (orig_stats : Option PlayerStats) (p : Player)
    (g : Server) (top : String) :
    sum_player_stats orig_stats p g top =
      add_top_player p top (add_gamemode_game g
        (add_team_game
          (detect_team_win_loss p g
            (add_score_deaths p (orig_stats.getD zeroed_stats))).1
          (detect_team_win_loss p g
            (add_score_deaths p (orig_stats.getD zeroed_stats))).2)) := by
  cases orig_stats <;> rfl

/-- C2 counterexample: `record_player_stats` has no participation filter.
Aggregating a match whose only player has zero score and zero deaths still
creates a new record when none exists (an `insert` is emitted, with the
team-games and gamemode-games counters already at 1), and still modifies an
existing record (an `update` is emitted whose stats differ from the stored
row).  The claim says such a player's persisted record is left completely
unchanged and that no record is created. -/
theorem record_player_stats_zero_player_counterexample :
    record_player_stats (fun _ => none) "2023-06-01" c2_server
      = [DBWrite.insert "Ghost" "2023-06-01"
          { zeroed_stats with us_games := 1, cq_games := 1, top_player := 1 }] ∧
    record_player_stats (fun _ => none) "2023-06-01" c2_server ≠ [] ∧
    record_player_stats (fun _ => some (7, c2_orig)) "2023-06-01" c2_server
      = [DBWrite.update 7
          { c2_orig with us_games := 3, cq_games := 3, top_player := 1 }] ∧
    { c2_orig with us_games := 3, cq_games := 3, top_player := 1 } ≠ c2_orig := by
  refine ⟨by decide, by decide, by decide, by decide⟩

/-- C2 amended: aggregation applies no participation filter in this revision.
Every player listed in the finished match receives exactly one database write,
and for a player with zero score and zero deaths the cumulative score and
deaths are unchanged while the team-games and gamemode-games counters are each
incremented by one — so the persisted record does change (and is created when
absent). -/
theorem record_player_stats_no_participation_filter :
    (∀ (db : String → Option (Nat × PlayerStats)) (today : String)
        (sd : Server),
      (record_player_stats db today sd).length = sd.players.length) ∧
    (∀ (orig_stats : Option PlayerStats) (p : Player) (g : Server)
        (top : String), p.score = 0 → p.deaths = 0 →
      (sum_player_stats orig_stats p g top).score
          = (orig_stats.getD zeroed_stats).score ∧
      (sum_player_stats orig_stats p g top).deaths
          = (orig_stats.getD zeroed_stats).deaths ∧
      (sum_player_stats orig_stats p g top).cq_games
            + (sum_player_stats orig_stats p g top).cf_games
          = (orig_stats.getD zeroed_stats).cq_games
            + (orig_stats.getD zeroed_stats).cf_games + 1 ∧
      (sum_player_stats orig_stats p g top).us_games
            + (sum_player_stats orig_stats p g top).ch_games
            + (sum_player_stats orig_stats p g top).ac_games
            + (sum_player_stats orig_stats p g top).eu_games
          = (orig_stats.getD zeroed_stats).us_games
            + (orig_stats.getD zeroed_stats).ch_games
            + (orig_stats.getD zeroed_stats).ac_games
            + (orig_stats.getD zeroed_stats).eu_games + 1 ∧
      sum_player_stats orig_stats p g top ≠ orig_stats.getD zeroed_stats) := by
  constructor
  · intro db today sd
    simp [record_player_stats]
  · intro orig_stats p g top hs hd
    rw [sum_player_stats_eq]
    have h5 := add_score_deaths_fields p (orig_stats.getD zeroed_stats)
    have h4 := detect_team_win_loss_fields p g
      (add_score_deaths p (orig_stats.getD zeroed_stats))
    have h3 := add_team_game_fields
      (detect_team_win_loss p g
        (add_score_deaths p (orig_stats.getD zeroed_stats))).1
      (detect_team_win_loss p g
        (add_score_deaths p (orig_stats.getD zeroed_stats))).2
    have h2 := add_gamemode_game_fields g
      (add_team_game
        (detect_team_win_loss p g
          (add_score_deaths p (orig_stats.getD zeroed_stats))).1
        (detect_team_win_loss p g
          (add_score_deaths p (orig_stats.getD zeroed_stats))).2)
    have h1 := add_top_player_fields p top
      (add_gamemode_game g
        (add_team_game
          (detect_team_win_loss p g
            (add_score_deaths p (orig_stats.getD zeroed_stats))).1
          (detect_team_win_loss p g
            (add_score_deaths p (orig_stats.getD zeroed_stats))).2))
    refine ⟨by omega, by omega, by omega, by omega, fun heq => ?_⟩
    have hcq := congrArg PlayerStats.cq_games heq
    have hcf := congrArg PlayerStats.cf_games heq
    omega

/-- Witness for `record_player_stats_no_participation_filter` at the concrete
zero-score, zero-deaths player `c2_player` of `c2_server`. -/
theorem record_player_stats_no_participation_filter_witness :
    (record_player_stats (fun _ => none) "2023-06-01" c2_server).length
        = c2_server.players.length ∧
    sum_player_stats none c2_player c2_server "Ghost"
        ≠ (none : Option PlayerStats).getD zeroed_stats :=
  ⟨record_player_stats_no_participation_filter.1 (fun _ => none)
      "2023-06-01" c2_server,
   (record_player_stats_no_participation_filter.2 none c2_player c2_server
      "Ghost" (by decide) (by decide)).2.2.2.2⟩

/-- C3: for every aggregated player, exactly one of three mutually exclusive
outcomes holds, decided by comparing the two teams' final scores from the
player's side: a strictly higher own-team score increments `wins` by one and
leaves `losses` unchanged; a strictly lower one increments `losses` by one and
leaves `wins` unchanged; equal scores (a draw) leave both unchanged.  `wins`
and `losses` are never both incremented. -/
theorem sum_player_stats_win_loss_exclusive (orig_stats : Option PlayerStats)
    (p : Player) (g : Server) (top : String) :
    (((if p.team = 0 then g.team1_score else g.team2_score) >
        (if p.team = 0 then g.team2_score else g.team1_score)) ∧
      (sum_player_stats orig_stats p g top).wins
          = (orig_stats.getD zeroed_stats).wins + 1 ∧
      (sum_player_stats orig_stats p g top).losses
          = (orig_stats.getD zeroed_stats).losses) ∨
    (((if p.team = 0 then g.team1_score else g.team2_score) <
        (if p.team = 0 then g.team2_score else g.team1_score)) ∧
      (sum_player_stats orig_stats p g top).losses
          = (orig_stats.getD zeroed_stats).losses + 1 ∧
      (sum_player_stats orig_stats p g top).wins
          = (orig_stats.getD zeroed_stats).wins) ∨
    (((if p.team = 0 then g.team1_score else g.team2_score) =
        (if p.team = 0 then g.team2_score else g.team1_score)) ∧
      (sum_player_stats orig_stats p g top).wins
          = (orig_stats.getD zeroed_stats).wins ∧
      (sum_player_stats orig_stats p g top).losses
          = (orig_stats.getD zeroed_stats).losses) := by
  rw [sum_player_stats_eq]
  have h5 := add_score_deaths_fields p (orig_stats.getD zeroed_stats)
  have h4 := detect_team_win_loss_outcome p g
    (add_score_deaths p (orig_stats.getD zeroed_stats))
  have h3 := add_team_game_fields
    (detect_team_win_loss p g
      (add_score_deaths p (orig_stats.getD zeroed_stats))).1
    (detect_team_win_loss p g
      (add_score_deaths p (orig_stats.getD zeroed_stats))).2
  have h2 := add_gamemode_game_fields g
    (add_team_game
      (detect_team_win_loss p g
        (add_score_deaths p (orig_stats.getD zeroed_stats))).1
      (detect_team_win_loss p g
        (add_score_deaths p (orig_stats.getD zeroed_stats))).2)
  have h1 := add_top_player_fields p top
    (add_gamemode_game g
      (add_team_game
        (detect_team_win_loss p g
          (add_score_deaths p (orig_stats.getD zeroed_stats))).1
        (detect_team_win_loss p g
          (add_score_deaths p (orig_stats.getD zeroed_stats))).2))
  rcases h4 with ⟨hc, hw, hl⟩ | ⟨hc, hl, hw⟩ | ⟨hc, hw, hl⟩
  · exact Or.inl ⟨hc, by omega, by omega⟩
  · exact Or.inr (Or.inl ⟨hc, by omega, by omega⟩)
  · exact Or.inr (Or.inr ⟨hc, by omega, by omega⟩)

/-- C4 counterexample: in the example scenario the numeric fields of Vet1's
new record are exactly as the claim lists them — but the `player_stats` table
of this revision has no match-history column at all, so the created record
cannot have "a match history whose most recent entry is `L`"; that final
conjunct of the claim is false. -/
theorem vet1_no_match_history_counterexample :
    sum_player_stats none vet1 c4_match "Foe" = vet1_expected ∧
    "match_history" ∉ player_stats_columns := by
  refine ⟨by decide, by decide⟩

/-- C4 amended (the match-history clause dropped): aggregating the example
match over an empty database creates for Vet1 a record with score 10,
deaths 2, `us_games` 1, `cq_games` 1, `losses` 1, `wins` 0 (and creates the
enemy's record alongside). -/
theorem vet1_first_match_record :
    record_player_stats (fun _ => none) "2023-06-01" c4_match
      = [DBWrite.insert "Vet1" "2023-06-01" vet1_expected,
         DBWrite.insert "Foe" "2023-06-01"
           { score := 11, deaths := 0, us_games := 0, ch_games := 1
             ac_games := 0, eu_games := 0, cq_games := 1, cf_games := 0
             wins := 1, losses := 0, top_player := 1 }] ∧
    vet1_expected.score = 10 ∧ vet1_expected.deaths = 2 ∧
    vet1_expected.us_games = 1 ∧ vet1_expected.cq_games = 1 ∧
    vet1_expected.losses = 1 ∧ vet1_expected.wins = 0 := by
  refine ⟨by decide, by decide, by decide, by decide, by decide, by decide,
    by decide⟩

/-- C1: on a tick where both the previous and the new snapshot exist and all
elapsed-time strings parse, (a) a server present in both snapshots (matched by
id, ids being unambiguous in the new snapshot) has its previous-tick data
handed to the aggregator iff its elapsed time in the new snapshot is strictly
lower than in the previous one, and (b) a server absent from the new snapshot
is handed to the aggregator exactly once and is absent from the tracking state
the tick leaves behind. -/
theorem status_loop_match_end_detection (old new : Snapshot)
    (hparse_old : ∀ s ∈ old.results, (time_to_sec s.time_elapsed).isSome)
    (hparse_new : ∀ s ∈ new.results, (time_to_sec s.time_elapsed).isSome)
    (hinj : ∀ x ∈ new.results, ∀ y ∈ new.results, x.id = y.id → x = y)
    (hnodup : old.results.Nodup) :
    ∃ recorded, statusLoopStep (some old) (some new) = .ok (recorded, new) ∧
      ∀ s_o ∈ old.results,
        (∀ s_n ∈ new.results, s_n.id = s_o.id →
          (s_o ∈ recorded ↔ ∃ a b, time_to_sec s_n.time_elapsed = some a ∧
            time_to_sec s_o.time_elapsed = some b ∧ a < b)) ∧
        ((∀ s_n ∈ new.results, s_n.id ≠ s_o.id) →
          recorded.count s_o = 1 ∧ s_o ∉ new.results) := by
  refine ⟨old.results.filter (shouldRecord new.results), rfl, ?_⟩
  intro s_o hso
  constructor
  · intro s_n hsn hid
    obtain ⟨b, hb⟩ := Option.isSome_iff_exists.mp (hparse_old s_o hso)
    obtain ⟨a, ha⟩ := Option.isSome_iff_exists.mp (hparse_new s_n hsn)
    have hfind : new.results.find? (fun x => s_o.id == x.id) = some s_n := by
      have hsome : (new.results.find? (fun x => s_o.id == x.id)).isSome := by
        rw [List.find?_isSome]
        exact ⟨s_n, hsn, by simp [hid]⟩
      obtain ⟨s_f, hsf⟩ := Option.isSome_iff_exists.mp hsome
      have hmem := List.mem_of_find?_eq_some hsf
      have hpf : s_o.id = s_f.id := by
        have := List.find?_some hsf
        simpa using this
      rw [hsf, hinj s_f hmem s_n hsn (hpf ▸ hid.symm)]
    have hsr : shouldRecord new.results s_o
        = decide ((time_to_sec s_o.time_elapsed).getD 0
          > (time_to_sec s_n.time_elapsed).getD 0) := by
      rw [shouldRecord, hfind]
    constructor
    · intro hrec
      have hp := (List.mem_filter.mp hrec).2
      rw [hsr, ha, hb] at hp
      exact ⟨a, b, ha, hb, by simpa using hp⟩
    · rintro ⟨a', b', ha', hb', hab⟩
      rw [ha'] at ha
      rw [hb'] at hb
      obtain rfl : a' = a := by injection ha
      obtain rfl : b' = b := by injection hb
      refine List.mem_filter.mpr ⟨hso, ?_⟩
      rw [hsr, ha', hb']
      simpa using hab
  · intro habs
    have hrec : shouldRecord new.results s_o = true := by
      have hn : new.results.find? (fun x => s_o.id == x.id) = none := by
        rw [List.find?_eq_none]
        intro x hx
        simpa using (habs x hx).symm
      rw [shouldRecord, hn]
    constructor
    · rw [List.count_filter hrec]
      exact List.count_eq_one_of_mem hnodup hso
    · intro hmem
      exact habs s_o hmem rfl

/-- Witness for `status_loop_match_end_detection` on concrete snapshots: the
restarted server (elapsed `00:10:00` then `00:00:10`) is recorded, and the
vanished server (id 9) is recorded exactly once and dropped. -/
theorem status_loop_match_end_detection_witness :
    ∃ recorded,
      statusLoopStep (some wit_old_snapshot) (some wit_new_snapshot)
        = .ok (recorded, wit_new_snapshot) ∧
      ∀ s_o ∈ wit_old_snapshot.results,
        (∀ s_n ∈ wit_new_snapshot.results, s_n.id = s_o.id →
          (s_o ∈ recorded ↔ ∃ a b, time_to_sec s_n.time_elapsed = some a ∧
            time_to_sec s_o.time_elapsed = some b ∧ a < b)) ∧
        ((∀ s_n ∈ wit_new_snapshot.results, s_n.id ≠ s_o.id) →
          recorded.count s_o = 1 ∧ s_o ∉ wit_new_snapshot.results) :=
  status_loop_match_end_detection wit_old_snapshot wit_new_snapshot
    (by decide) (by decide) (by decide) (by decide)

/-- C6 (code bug): if the fetch returns the unavailable sentinel `None`, the
tick does not complete gracefully — it raises `TypeError` subscripting `None`
(at line 474 when servers are tracked, else at line 497) — although no stat
aggregation is performed before the exception. -/
theorem status_loop_none_fetch_raises :
    (∀ prev, statusLoopStep prev none
      = .error "TypeError: 'NoneType' object is not subscriptable") ∧
    statusLoopStep (some wit_old_snapshot) none
      = .error "TypeError: 'NoneType' object is not subscriptable" :=
  ⟨fun prev => by cases prev <;> rfl, rfl⟩

/-- C7 counterexample: the fetcher does not return the `None` sentinel on
every failure.  A request timeout propagates `requests.exceptions.Timeout`
(uncaught — there is no `try` around `requests.get`), and a 200 response with
a malformed body propagates the JSON decode error, instead of returning
`None` as the claim states. -/
theorem query_api_timeout_counterexample :
    query_api none RequestOutcome.timeout
        = .error "requests.exceptions.Timeout" ∧
    query_api none RequestOutcome.timeout ≠ .ok none ∧
    query_api none (.response 200 .malformedBody)
        = .error "json.JSONDecodeError" ∧
    query_api none (.response 200 .malformedBody) ≠ .ok none := by
  refine ⟨rfl, by simp [query_api], rfl, by simp [query_api]⟩

/-- C7 amended: absent the debug override, the fetcher returns the parsed
snapshot exactly when a response with status 200 and a well-formed JSON body
is received, and returns the sentinel `None` exactly when a response with a
non-200 status is received; a timeout, a connection error, and a malformed
200-body all propagate as exceptions rather than returning `None`. -/
theorem query_api_return_characterisation :
    ∀ outcome : RequestOutcome,
      (query_api none outcome = .ok none ↔
        ∃ status_code body, outcome = .response status_code body ∧
          status_code ≠ 200) ∧
      (∀ d, query_api none outcome = .ok (some d) ↔
        outcome = .response 200 (.jsonBody d)) := by
  intro outcome
  cases outcome with
  | response status_code body =>
      by_cases h : status_code = 200
      · subst h
        cases body <;> simp [query_api]
      · simp [query_api, h]
  | timeout => simp [query_api]
  | connectionError => simp [query_api]

/-- C5 counterexample: `record_player_stats` takes no minimum-player
parameter and records a match with a single participant even though the
configured minimum (`MatchMinPlayers = 2`) exceeds the participant count —
player statistics are written, so recording a below-minimum match is not a
no-op.  (Only `record_map_stats` enforces the minimum.) -/
theorem record_player_stats_below_min_counterexample :
    (c5_server.players.length : Int) < c5_min_players ∧
    record_player_stats (fun _ => none) "2023-06-01" c5_server
      = [DBWrite.insert "Solo" "2023-06-01"
          { zeroed_stats with
            score := 3, deaths := 1, us_games := 1,
            cq_games := 1, losses := 1, top_player := 1 }] ∧
    record_player_stats (fun _ => none) "2023-06-01" c5_server ≠ [] := by
  refine ⟨by decide, by decide, by decide⟩

/-- C5 amended: the minimum-player gate exists only on the map-statistics
side: `record_map_stats` returns `False` and writes nothing whenever the
participant count is below `MatchMinPlayers`, while `record_player_stats`
(this revision) writes one player-stats row per listed player regardless of
the participant count. -/
theorem record_map_stats_min_players_gate :
    (∀ (matchMinPlayers : Int) (db : Nat → String → Option Int)
        (s : ApiServerData), s.playersCount < matchMinPlayers →
      record_map_stats matchMinPlayers db (some s) = .ok (false, none)) ∧
    (∀ (db : String → Option (Nat × PlayerStats)) (today : String)
        (sd : Server),
      (record_player_stats db today sd).length = sd.players.length) := by
  constructor
  · intro matchMinPlayers db s h
    simp [record_map_stats, h]
  · intro db today sd
    simp [record_player_stats]

/-- Witness for `record_map_stats_min_players_gate`: a one-player match
against a configured minimum of 2 writes no map statistics. -/
theorem record_map_stats_min_players_gate_witness :
    record_map_stats 2 (fun _ _ => none)
        (some { playersCount := 1, gameType := "conquest"
                mapName := "dammage" })
      = .ok (false, none) ∧
    (record_player_stats (fun _ => none) "2023-06-01" c5_server).length
      = c5_server.players.length :=
  ⟨record_map_stats_min_players_gate.1 2 (fun _ _ => none)
      { playersCount := 1, gameType := "conquest", mapName := "dammage" }
      (by norm_num),
   record_map_stats_min_players_gate.2 (fun _ => none) "2023-06-01" c5_server⟩

/-- `find?` returns the element sitting at the index `findIdx?` returns. -/
lemma find?_eq_findIdx?_bind {α : Type} (l : List α) (p : α → Bool) :
    l.find? p = (l.findIdx? p).bind l.get? := by
  induction l with
  | nil => rfl
  | cons a l ih =>
      by_cases h : p a
      · simp [List.find?_cons, List.findIdx?_cons, h]
      · simp [List.find?_cons, List.findIdx?_cons, h, List.findIdx?_succ, ih,
          Option.bind_map]

/-- In a chain starting at `a`, every entry's lower bound is at least `a`. -/
lemma chain_lo_ge (l : List RankEntry) : ∀ (a : Int), chainB a l = true →
    ∀ k (hk : k < l.length), a ≤ (l.get ⟨k, hk⟩).lo := by
  induction l with
  | nil => intro a h k hk; simp at hk
  | cons e rest ih =>
      intro a h k hk
      unfold chainB at h
      rw [Bool.and_eq_true] at h
      obtain ⟨hlo, hrest⟩ := h
      have hloe : e.lo = a := by simpa using hlo
      cases k with
      | zero => simpa [List.get] using le_of_eq hloe.symm
      | succ k =>
          cases he : e.hi with
          | none =>
              rw [he] at hrest
              have : rest.length = 0 := by
                simpa [List.isEmpty_iff_length_eq_zero] using hrest
              simp at hk
              omega
          | some b =>
              rw [he, Bool.and_eq_true, decide_eq_true_eq] at hrest
              obtain ⟨hab, hchain⟩ := hrest
              have hk' : k < rest.length := by simpa using hk
              have := ih b hchain k hk'
              calc a ≤ b := le_of_lt hab
                _ ≤ _ := this

/-- In a chain starting at `a` and a score `s ≥ a`, the range scan succeeds,
and it returns the last position whose lower threshold is met: a position's
lower bound is `≤ s` exactly when the position is at most the returned one. -/
lemma chain_findIdx (l : List RankEntry) : ∀ (a : Int), chainB a l = true →
    ∀ (s : Int), a ≤ s →
    ∃ i, i < l.length ∧
      l.findIdx? (fun e => rank_range_contains e s) = some i ∧
      ∀ k (hk : k < l.length), ((l.get ⟨k, hk⟩).lo ≤ s ↔ k ≤ i) := by
  induction l with
  | nil => intro a h; exact absurd h (by simp [chainB])
  | cons e rest ih =>
      intro a h s hs
      unfold chainB at h
      rw [Bool.and_eq_true] at h
      obtain ⟨hlo, hrest⟩ := h
      have hloe : e.lo = a := by simpa using hlo
      cases he : e.hi with
      | none =>
          -- the final, unbounded range: it matches
          rw [he] at hrest
          have hempty : rest.length = 0 := by
            simpa [List.isEmpty_iff_length_eq_zero] using hrest
          refine ⟨0, by simp, ?_, ?_⟩
          · rw [List.findIdx?_cons]
            have : rank_range_contains e s = true := by
              simp [rank_range_contains, he, hloe, hs]
            rw [this]
            simp
          · intro k hk
            have hk0 : k = 0 := by simp at hk; omega
            subst hk0
            simp [List.get, hloe, hs]
      | some b =>
          rw [he, Bool.and_eq_true, decide_eq_true_eq] at hrest
          obtain ⟨hab, hchain⟩ := hrest
          by_cases hsb : s < b
          · -- s falls inside this first range
            refine ⟨0, by simp, ?_, ?_⟩
            · rw [List.findIdx?_cons]
              have : rank_range_contains e s = true := by
                simp [rank_range_contains, he, hloe, hs, hsb]
              rw [this]
              simp
            · intro k hk
              cases k with
              | zero => simp [List.get, hloe, hs]
              | succ k =>
                  have hk' : k < rest.length := by simpa using hk
                  have hge := chain_lo_ge rest b hchain k hk'
                  simp only [List.get]
                  constructor
                  · intro hle; omega
                  · intro hle; omega
          · -- s lies beyond this range: the scan continues in the tail
            obtain ⟨i, hilen, hfind, hchar⟩ := ih b hchain s (by omega)
            refine ⟨i + 1, by simpa using hilen, ?_, ?_⟩
            · rw [List.findIdx?_cons]
              have : rank_range_contains e s = false := by
                simp [rank_range_contains, he, hloe, hs, hsb]
              rw [this]
              simp [List.findIdx?_succ, hfind]
            · intro k hk
              cases k with
              | zero => simp [List.get, hloe, hs]
              | succ k =>
                  have hk' : k < rest.length := by simpa using hk
                  have := hchar k hk'
                  simp only [List.get]
                  rw [this]
                  omega

/-- `RANK_DATA` is a contiguous ascending chain starting at score 0. -/
lemma rank_data_chain : chainB 0 RANK_DATA = true := by decide

/-- C8: the rank lookup is monotonic — for non-negative scores `s ≤ s'` the
tier index returned for `s'` is at least the one returned for `s` (so the
rank never decreases), `get_rank_data` returns exactly the entry of that
tier, and in both cases the returned tier is the highest whose lower score
threshold is met. -/
theorem get_rank_data_monotone (s s' : Int) (hs : 0 ≤ s) (hss : s ≤ s') :
    ∃ i j,
      rank_index s = some i ∧ rank_index s' = some j ∧ i ≤ j ∧
      get_rank_data s = (RANK_DATA.get? i).map (fun e => (e.name, e.img)) ∧
      get_rank_data s' = (RANK_DATA.get? j).map (fun e => (e.name, e.img)) ∧
      (∀ k, (hk : k < RANK_DATA.length) →
        ((RANK_DATA.get ⟨k, hk⟩).lo ≤ s ↔ k ≤ i)) ∧
      (∀ k, (hk : k < RANK_DATA.length) →
        ((RANK_DATA.get ⟨k, hk⟩).lo ≤ s' ↔ k ≤ j)) := by
  have hs' : 0 ≤ s' := le_trans hs hss
  obtain ⟨i, hilen, hfi, hci⟩ := chain_findIdx RANK_DATA 0 rank_data_chain s hs
  obtain ⟨j, hjlen, hfj, hcj⟩ :=
    chain_findIdx RANK_DATA 0 rank_data_chain s' hs'
  have hij : i ≤ j := by
    have hloi : (RANK_DATA.get ⟨i, hilen⟩).lo ≤ s := (hci i hilen).mpr le_rfl
    exact (hcj i hilen).mp (le_trans hloi hss)
  have hgi : get_rank_data s
      = (RANK_DATA.get? i).map (fun e => (e.name, e.img)) := by
    rw [get_rank_data, find?_eq_findIdx?_bind, hfi]
    rfl
  have hgj : get_rank_data s'
      = (RANK_DATA.get? j).map (fun e => (e.name, e.img)) := by
    rw [get_rank_data, find?_eq_findIdx?_bind, hfj]
    rfl
  exact ⟨i, j, hfi, hfj, hij, hgi, hgj, hci, hcj⟩

/-- Witness for `get_rank_data_monotone` at the concrete scores 30 and 100. -/
theorem get_rank_data_monotone_witness :
    ∃ i j,
      rank_index 30 = some i ∧ rank_index 100 = some j ∧ i ≤ j ∧
      get_rank_data 30 = (RANK_DATA.get? i).map (fun e => (e.name, e.img)) ∧
      get_rank_data 100 = (RANK_DATA.get? j).map (fun e => (e.name, e.img)) ∧
      (∀ k, (hk : k < RANK_DATA.length) →
        ((RANK_DATA.get ⟨k, hk⟩).lo ≤ 30 ↔ k ≤ i)) ∧
      (∀ k, (hk : k < RANK_DATA.length) →
        ((RANK_DATA.get ⟨k, hk⟩).lo ≤ 100 ↔ k ≤ j)) :=
  get_rank_data_monotone 30 100 (by norm_num) (by norm_num)

/-- C9: (a) for a medal name present in `MEDALS_DATA` with bitmask `mask`,
`is_medal_earned` returns `True` exactly when all bits of `mask` are set in
the earned-medals integer (`e AND mask = mask`); (b) a name not in the table
yields `False`; (c) each ribbon is an independent `stat ≥ constant` check, so
the awarded ribbon set is monotone: pointwise larger stats award a superset
of ribbons. -/
theorem medals_ribbons_checks :
    (∀ (e : Nat) (name : String) (mask : Nat) (title desc : String),
      (name, (mask, title, desc)) ∈ MEDALS_DATA →
      (is_medal_earned e name = true ↔ e &&& mask = mask)) ∧
    (∀ (e : Nat) (name : String),
      (∀ entry ∈ MEDALS_DATA, entry.1 ≠ name) →
      is_medal_earned e name = false) ∧
    (∀ ngp mv ttb ngp' mv' ttb' : Int, ngp ≤ ngp' → mv ≤ mv' → ttb ≤ ttb' →
      earned_ribbons ngp mv ttb ⊆ earned_ribbons ngp' mv' ttb') := by
  refine ⟨?_, ?_, ?_⟩
  · intro e name mask title desc hmem
    fin_cases hmem <;> simp [is_medal_earned, MEDALS_DATA]
  · intro e name h
    have hfind : MEDALS_DATA.find? (fun en => en.1 == name) = none :=
      List.find?_eq_none.mpr (fun x hx => by simpa using h x hx)
    rw [is_medal_earned, hfind]
  · intro ngp mv ttb ngp' mv' ttb' h1 h2 h3
    have step : ∀ (c d : Prop) [Decidable c] [Decidable d] (r : String),
        (c → d) → (if c then [r] else []) ⊆ (if d then [r] else []) := by
      intro c d _ _ r hcd x hx
      by_cases hc : c
      · rw [if_pos hc] at hx
        rw [if_pos (hcd hc)]
        exact hx
      · rw [if_neg hc] at hx
        simp at hx
    have app : ∀ {l₁ l₂ l₃ l₄ : List String},
        l₁ ⊆ l₃ → l₂ ⊆ l₄ → l₁ ++ l₂ ⊆ l₃ ++ l₄ := by
      intro l₁ l₂ l₃ l₄ ha hb x hx
      rcases List.mem_append.mp hx with hx | hx
      · exact List.mem_append.mpr (Or.inl (ha hx))
      · exact List.mem_append.mpr (Or.inr (hb hx))
    unfold earned_ribbons
    exact app (app (app (app (app (app (app
      (step _ _ _ (by omega)) (step _ _ _ (by omega)))
      (step _ _ _ (by omega))) (step _ _ _ (by omega)))
      (step _ _ _ (by omega))) (step _ _ _ (by omega)))
      (step _ _ _ (by omega))) (step _ _ _ (by omega))

/-- Witness for `medals_ribbons_checks`: the first medal's bitmask check on a
concrete earned-medals value, and ribbon monotonicity between two concrete
stat vectors. -/
theorem medals_ribbons_checks_witness :
    (is_medal_earned 1 "The_Service_Cross" = true ↔ 1 &&& 1 = 1) ∧
    is_medal_earned 1 "Not_A_Medal" = false ∧
    earned_ribbons 50 5 5 ⊆ earned_ribbons 500 50 20 :=
  ⟨medals_ribbons_checks.1 1 "The_Service_Cross" 1 "The Service Cross"
      "Kill 5 enemies without dying, using kit weapons only." (by decide),
   medals_ribbons_checks.2.1 1 "Not_A_Medal" (by decide),
   medals_ribbons_checks.2.2 50 5 5 500 50 20 (by norm_num) (by norm_num)
     (by norm_num)⟩

/-- Witness for `split_list_correct` at the concrete input `[1,2,3,4,5]`
with chunk size `2`. -/
theorem split_list_correct_witness :
    (split_list [1, 2, 3, 4, 5] 2).flatten = [1, 2, 3, 4, 5] ∧
    (∀ l ∈ (split_list [1, 2, 3, 4, 5] 2).dropLast, l.length = (2 : Int).toNat) ∧
    (∀ l ∈ split_list [1, 2, 3, 4, 5] 2, l.length ≤ (2 : Int).toNat) :=
  ⟨(split_list_correct [1, 2, 3, 4, 5] 2).1,
   (split_list_correct [1, 2, 3, 4, 5] 2).2 (by norm_num)⟩

end Backstab
